import Mathlib

/-! # Go-kit PDF convert service

A shallow embedding of the three source files of the service
(main.go, logging.go, instrumenting.go) and the properties of its
decorator pipeline and endpoint adapter.

Effects are made explicit: every function that touches the outside world
takes a `World` and returns the world after it.  The world holds the wall
clock (what time.Now reads) and the ordered trace of calls made to the
external collaborators: the gofpdf document, the go-kit logger and the
go-kit metrics.  What the collaborators answer is not decided by the
program, so it is a parameter (`Gofpdf`), as is any inner `ConvertService`.

Time passes inside the collaborators only: the steps of the program itself
take no time.  The statements below do not rest on that: wherever an elapsed
time is reported, they leave its value open.  Durations are kept in whole
nanoseconds.  A panic is modelled at the one place where the program can
raise one itself, the type assertion of the endpoint.

The JSON decoder and the HTTP server are libraries (encoding/json, go-kit);
they are modelled after their documented behaviour, as far as the request
type of this service exercises it.
-/

namespace PdfService

/-! ## Errors -/

/-- Values of the Go interface type error that reach this program. -/
inductive GoError where
  /-- The value built by errors.New. -/
  | errorString (text : String)
  /-- A json.UnmarshalTypeError: a JSON value of kind `value` met a Go target of type `goType`. -/
  | unmarshalTypeError (value : String) (goType : String)
  /-- The body is not one well-formed JSON value (json.SyntaxError, io.EOF, a read error). -/
  | malformedBody (msg : String)
  /-- An error reported by the gofpdf document when it is written out. -/
  | renderError (msg : String)
  deriving DecidableEq, Repr

/-- The method Error() of the Go error interface. -/
def GoError.Error : GoError → String
  | .errorString text => text
  | .unmarshalTypeError value goType =>
      "json: cannot unmarshal " ++ value ++ " into Go value of type " ++ goType
  | .malformedBody msg => msg
  | .renderError msg => msg

/-- main.go line 38: var ErrEmpty = errors.New("Empty string"). -/
def ErrEmpty : GoError := .errorString "Empty string"

/-! ## The world: clock and trace of external calls -/

/-- A call on the gofpdf package or on the document it returned. -/
inductive FpdfCall where
  | New (orientationStr unitStr sizeStr fontDirStr : String)
  | AddPage
  | SetFont (familyStr styleStr : String) (size : Nat)
  | Cell (w h : Nat) (txt : String)
  | OutputFileAndClose (fileStr : String)
  deriving DecidableEq, Repr

/-- A go-kit log.Logger, identified by the sink it writes to. -/
structure Logger where
  sink : String
  deriving DecidableEq, Repr

/-- A go-kit metrics.Counter: the metric and the label values bound so far by With. -/
structure Counter where
  name : String
  lvs : List String
  deriving DecidableEq, Repr

/-- A go-kit metrics.Histogram: the metric and the label values bound so far by With. -/
structure Histogram where
  name : String
  lvs : List String
  deriving DecidableEq, Repr

/-- A value passed to Logger.Log after a key. -/
inductive LogValue where
  | str (s : String)
  /-- A value of type error; none is the nil error. -/
  | err (e : Option GoError)
  /-- A time.Duration, in nanoseconds. -/
  | dur (ns : Nat)
  deriving DecidableEq, Repr

/-- One call to an external collaborator. -/
inductive Event where
  | fpdf (call : FpdfCall)
  /-- Logger.Log with keys and values paired up. -/
  | log (logger : Logger) (keyvals : List (String × LogValue))
  /-- Counter.Add(delta) on a counter with its label values. -/
  | add (counter : Counter) (delta : Nat)
  /-- Histogram.Observe of an elapsed time, kept in nanoseconds. -/
  | observe (histogram : Histogram) (elapsed : Nat)
  deriving DecidableEq, Repr

/-- The state outside the program: the clock, in nanoseconds, and every call made so far,
oldest first. -/
structure World where
  clock : Nat
  trace : List Event
  deriving DecidableEq, Repr

/-- Records one call at the end of the trace. -/
def World.emit (w : World) (e : Event) : World :=
  { w with trace := w.trace ++ [e] }

/-- The call time.Now(). -/
def timeNow (w : World) : Nat := w.clock

/-- The call time.Since(begin). -/
def timeSince (begin : Nat) (w : World) : Nat := w.clock - begin

/-- The call logger.Log(keyvals...); its returned error is discarded by the caller. -/
def Logger.Log (l : Logger) (keyvals : List (String × LogValue)) (w : World) : World :=
  w.emit (.log l keyvals)

/-- The call counter.With(lvs...). -/
def Counter.With (c : Counter) (lvs : List String) : Counter :=
  { c with lvs := c.lvs ++ lvs }

/-- The call counter.Add(delta). -/
def Counter.Add (c : Counter) (delta : Nat) (w : World) : World :=
  w.emit (.add c delta)

/-- The call histogram.With(lvs...). -/
def Histogram.With (h : Histogram) (lvs : List String) : Histogram :=
  { h with lvs := h.lvs ++ lvs }

/-- The call histogram.Observe(value). -/
def Histogram.Observe (h : Histogram) (elapsed : Nat) (w : World) : World :=
  w.emit (.observe h elapsed)

/-- The rendering collaborator.  What writing the file answers, and how long it takes, is
decided outside the program: it may depend on the file name and on everything that happened
before. -/
structure Gofpdf where
  outcome : String → World → Option GoError × Nat

/-- A gofpdf call that only builds the document in memory. -/
def Gofpdf.call (_fpdf : Gofpdf) (c : FpdfCall) (w : World) : World :=
  w.emit (.fpdf c)

/-- The call pdf.OutputFileAndClose(fileStr): the one call that produces the artifact. -/
def Gofpdf.OutputFileAndClose (fpdf : Gofpdf) (fileStr : String) (w : World) :
    Option GoError × World :=
  let res := fpdf.outcome fileStr w
  (res.1, { clock := w.clock + res.2, trace := w.trace ++ [.fpdf (.OutputFileAndClose fileStr)] })

/-! ## main.go: the service -/

/-- The result of Pdf: the Go pair (string, error) and the world after the call. -/
abbrev PdfResult := (String × Option GoError) × World

/-- The interface ConvertService (main.go lines 19-21): anything with a method Pdf. -/
structure ConvertService where
  Pdf : String → World → PdfResult

/-- The method convertService.Pdf (main.go lines 25-36). -/
def convertService.Pdf (fpdf : Gofpdf) (s : String) (w : World) : PdfResult :=
  if s = "" then
    (("", some ErrEmpty), w)
  else
    let w1 := fpdf.call (.New "P" "mm" "A4" "") w
    let w2 := fpdf.call .AddPage w1
    let w3 := fpdf.call (.SetFont "Arial" "B" 16) w2
    let w4 := fpdf.call (.Cell 40 10 s) w3
    let w5 := fpdf.call (.Cell 40 20 s) w4
    let res := fpdf.OutputFileAndClose "example.pdf" w5
    (("Done", res.1), res.2)

/-- The value convertService{} seen through the interface. -/
def convertService.toService (fpdf : Gofpdf) : ConvertService :=
  ⟨convertService.Pdf fpdf⟩

/-- The struct pdfRequest (main.go lines 40-42). -/
structure pdfRequest where
  S : String
  deriving DecidableEq, Repr

/-- The struct pdfResponse (main.go lines 44-47). -/
structure pdfResponse where
  V : String
  Err : String
  deriving DecidableEq, Repr

/-- A value of the empty interface, by dynamic type. -/
inductive GoValue where
  | nil
  | pdfRequest (req : pdfRequest)
  | pdfResponse (resp : pdfResponse)
  | string (s : String)
  /-- A value of any other dynamic type, named by that type. -/
  | other (typeName : String)
  deriving DecidableEq, Repr

/-- How a Go call ends: it returns, or it panics. -/
inductive Outcome (α : Type) where
  | returned (a : α)
  | panicked (msg : String)
  deriving DecidableEq, Repr

/-- The type endpoint.Endpoint; the context argument carries nothing the program reads. -/
abbrev Endpoint := GoValue → World → Outcome (GoValue × Option GoError) × World

/-- The function makePdfEndpoint (main.go lines 49-58).  The type assertion
request.(pdfRequest) has the one-result form, which panics on any other dynamic type. -/
def makePdfEndpoint (svc : ConvertService) : Endpoint := fun request w =>
  match request with
  | .pdfRequest req =>
      let res := svc.Pdf req.S w
      let v := res.1.1
      match res.1.2 with
      | some err => (.returned (.pdfResponse ⟨v, err.Error⟩, none), res.2)
      | none => (.returned (.pdfResponse ⟨v, ""⟩, none), res.2)
  | _ => (.panicked "interface conversion: interface is not main.pdfRequest", w)

/-! ## logging.go and instrumenting.go: the decorators -/

/-- The struct loggingMiddleware (logging.go lines 9-12). -/
structure loggingMiddleware where
  logger : Logger
  next : ConvertService

/-- The method loggingMiddleware.Pdf (logging.go lines 14-27).  The deferred closure takes
time.Now() when Pdf is entered and runs after the named results are set. -/
def loggingMiddleware.Pdf (mw : loggingMiddleware) (s : String) (w : World) : PdfResult :=
  let begin := timeNow w
  let res := mw.next.Pdf s w
  let output := res.1.1
  let err := res.1.2
  let w1 := mw.logger.Log
    [("method", .str "pdf"), ("input", .str s), ("output", .str output), ("err", .err err),
     ("took", .dur (timeSince begin res.2))] res.2
  ((output, err), w1)

/-- A loggingMiddleware seen through the interface. -/
def loggingMiddleware.toService (mw : loggingMiddleware) : ConvertService :=
  ⟨mw.Pdf⟩

/-- The struct instrumentingMiddleware (instrumenting.go lines 10-15). -/
structure instrumentingMiddleware where
  requestCount : Counter
  requestLatency : Histogram
  countResult : Histogram
  next : ConvertService

/-- The call fmt.Sprint(b) on a bool. -/
def sprintBool (b : Bool) : String := if b then "true" else "false"

/-- The method instrumentingMiddleware.Pdf (instrumenting.go lines 17-26). -/
def instrumentingMiddleware.Pdf (mw : instrumentingMiddleware) (s : String) (w : World) :
    PdfResult :=
  let begin := timeNow w
  let res := mw.next.Pdf s w
  let output := res.1.1
  let err := res.1.2
  let lvs := ["method", "pdf", "error", sprintBool err.isNone]
  let w1 := (mw.requestCount.With lvs).Add 1 res.2
  let w2 := (mw.requestLatency.With lvs).Observe (timeSince begin w1) w1
  ((output, err), w2)

/-- An instrumentingMiddleware seen through the interface. -/
def instrumentingMiddleware.toService (mw : instrumentingMiddleware) : ConvertService :=
  ⟨mw.Pdf⟩

/-- One decorator without its inner service. -/
inductive Layer where
  | logging (logger : Logger)
  | instrumenting (requestCount : Counter) (requestLatency countResult : Histogram)
  deriving DecidableEq, Repr

/-- Puts one decorator around a service, as the struct literals of main.go lines 86-87 do. -/
def Layer.around : Layer → ConvertService → ConvertService
  | .logging logger, svc => (loggingMiddleware.mk logger svc).toService
  | .instrumenting rc rl cr, svc => (instrumentingMiddleware.mk rc rl cr svc).toService

/-- A stack of decorators around a service; the list runs from the innermost layer to the
outermost, the order in which main reassigns svc. -/
def wrap : List Layer → ConvertService → ConvertService
  | [], svc => svc
  | l :: ls, svc => wrap ls (l.around svc)

/-! ## The request decoder -/

/-- A JSON value as the scanner of encoding/json delivers it. -/
inductive Json where
  | null
  | bool (b : Bool)
  /-- A number, by its literal. -/
  | num (lit : String)
  | str (s : String)
  | arr (items : List Json)
  /-- An object: its members in the order written, duplicate keys included. -/
  | obj (members : List (String × Json))

/-- The name encoding/json gives the kind of a JSON value in an UnmarshalTypeError. -/
def Json.kindName : Json → String
  | .null => "null"
  | .bool _ => "bool"
  | .num _ => "number"
  | .str _ => "string"
  | .arr _ => "array"
  | .obj _ => "object"

/-- What the decoder reads from the request body: the first JSON value of the stream, or the
error met before one was complete. -/
inductive Body where
  | invalid (err : GoError)
  | value (j : Json)

/-- Whether an object key selects the field S, tagged json:"s".  encoding/json takes the key
equal to the tag, or else one equal to it under Unicode simple case folding: for the tag s
these are s, S and the long s (U+017F). -/
def matchesFieldS (key : String) : Bool :=
  key == "s" || key == "S" || key == "ſ"

/-- The saveError of encoding/json: only the first error is kept. -/
def saveError (saved : Option GoError) (err : GoError) : Option GoError :=
  match saved with
  | some e => some e
  | none => some err

/-- One member of the object decoded into a pdfRequest.  A member for another key is skipped;
for the field S a string is stored, null has no effect on a string target, and any other value
is skipped with an UnmarshalTypeError saved while decoding goes on. -/
def decodeMember (st : pdfRequest × Option GoError) (member : String × Json) :
    pdfRequest × Option GoError :=
  if matchesFieldS member.1 then
    match member.2 with
    | .str s => ({ S := s }, st.2)
    | .null => st
    | v => (st.1, saveError st.2 (.unmarshalTypeError v.kindName "string"))
  else st

/-- The call json.NewDecoder(r.Body).Decode(&request) for a request of type pdfRequest
(the library behind main.go line 103): the updated request and the returned error. -/
def jsonDecode (body : Body) (request : pdfRequest) : pdfRequest × Option GoError :=
  match body with
  | .invalid err => (request, some err)
  | .value (.obj members) => members.foldl decodeMember (request, none)
  | .value .null => (request, none)
  | .value v => (request, some (.unmarshalTypeError v.kindName "main.pdfRequest"))

/-- The function decodePdfRequest (main.go lines 101-107). -/
def decodePdfRequest (r : Body) : GoValue × Option GoError :=
  let request : pdfRequest := { S := "" }
  let res := jsonDecode r request
  match res.2 with
  | some err => (.nil, some err)
  | none => (.pdfRequest res.1, none)

/-! ## main.go: the wiring -/

/-- What the HTTP handler did with one request. -/
inductive HttpOutcome where
  /-- The decoder failed; the error encoder answered and the endpoint was not called. -/
  | decodeFailed (err : GoError)
  /-- The endpoint returned an error; the error encoder answered. -/
  | endpointFailed (err : GoError)
  /-- The endpoint returned this response, which was handed to the response encoder. -/
  | responded (response : GoValue)
  /-- The endpoint panicked. -/
  | panicked (msg : String)
  deriving DecidableEq, Repr

/-- The method ServeHTTP of the go-kit server built by httptransport.NewServer
(main.go lines 89-94): decode, stop on a decode error, else call the endpoint. -/
def ServeHTTP (e : Endpoint) (dec : Body → GoValue × Option GoError) (r : Body) (w : World) :
    HttpOutcome × World :=
  let decoded := dec r
  match decoded.2 with
  | some err => (.decodeFailed err, w)
  | none =>
      let res := e decoded.1 w
      match res.1 with
      | .panicked msg => (.panicked msg, res.2)
      | .returned (_, some err) => (.endpointFailed err, res.2)
      | .returned (response, none) => (.responded response, res.2)

/-- The logger of main.go line 62. -/
def main.logger : Logger := ⟨"os.Stderr"⟩

/-- The counter of main.go lines 65-70. -/
def main.requestCount : Counter := ⟨"my_group_string_service_request_count", []⟩

/-- The summary of main.go lines 71-76. -/
def main.requestLatency : Histogram :=
  ⟨"my_group_string_service_request_latency_microseconds", []⟩

/-- The summary of main.go lines 77-82. -/
def main.countResult : Histogram := ⟨"my_group_string_service_count_result", []⟩

/-- The service of main.go lines 84-87. -/
def main.svc (fpdf : Gofpdf) : ConvertService :=
  let svc := convertService.toService fpdf
  let svc := (loggingMiddleware.mk main.logger svc).toService
  let svc :=
    (instrumentingMiddleware.mk main.requestCount main.requestLatency main.countResult
      svc).toService
  svc

/-- The handler of main.go lines 89-94. -/
def main.pdfHandler (fpdf : Gofpdf) (r : Body) (w : World) : HttpOutcome × World :=
  ServeHTTP (makePdfEndpoint (main.svc fpdf)) decodePdfRequest r w

/-! ## Vocabulary of the properties -/

/-- The events a call added to the trace: what follows the first `before.trace.length`. -/
def newEvents (before after : World) : List Event :=
  after.trace.drop before.trace.length

/-- Whether an event is the artifact-producing render call. -/
def Event.isRender : Event → Bool
  | .fpdf (.OutputFileAndClose _) => true
  | _ => false

/-- Whether an event is a call on gofpdf. -/
def Event.isFpdf : Event → Bool
  | .fpdf _ => true
  | _ => false

/-- Whether an event is a log record. -/
def Event.isLog : Event → Bool
  | .log _ _ => true
  | _ => false

/-- Whether an event is a counter increment. -/
def Event.isAdd : Event → Bool
  | .add _ _ => true
  | _ => false

/-- Whether an event is a latency observation. -/
def Event.isObserve : Event → Bool
  | .observe _ _ => true
  | _ => false

/-- Whether a layer is a loggingMiddleware. -/
def Layer.isLogging : Layer → Bool
  | .logging _ => true
  | .instrumenting _ _ _ => false

/-- A renderer that always succeeds at once. -/
def okRenderer : Gofpdf := ⟨fun _ _ => (none, 0)⟩

/-- A renderer that cannot write the file. -/
def failingRenderer : Gofpdf :=
  ⟨fun _ _ => (some (.renderError "open example.pdf: permission denied"), 0)⟩

/-- The world before anything happened. -/
def World.init : World := ⟨0, []⟩

/-- The records one layer emits for a call with input `s` whose inner result is `r` and which
took `took` nanoseconds: one log record for a logging layer, one counter increment followed by
one latency observation for an instrumenting layer. -/
def Layer.expectedRecords (s : String) (r : String × Option GoError) (took : Nat) :
    Layer → List Event
  | .logging logger =>
      [.log logger
        [("method", .str "pdf"), ("input", .str s), ("output", .str r.1), ("err", .err r.2),
         ("took", .dur took)]]
  | .instrumenting rc rl _ =>
      [.add (rc.With ["method", "pdf", "error", if r.2 = none then "true" else "false"]) 1,
       .observe (rl.With ["method", "pdf", "error", if r.2 = none then "true" else "false"])
         took]

/-- Whether a JSON value is of a type that cannot be stored in a Go string and is reported as
a type mismatch: a number, a boolean, an array or an object.  (The JSON null is no mismatch for
encoding/json: it leaves the target as it is.) -/
def Json.isWrongTypeForString : Json → Bool
  | .num _ => true
  | .bool _ => true
  | .arr _ => true
  | .obj _ => true
  | .str _ => false
  | .null => false

/-! ## Helper lemmas -/

theorem newEvents_self (w : World) : newEvents w w = [] := by
  simp [newEvents]

theorem sprintBool_isNone (e : Option GoError) :
    sprintBool e.isNone = if e = none then "true" else "false" := by
  cases e <;> simp [sprintBool]

/-- One layer returns what its inner service returned and appends its records to the trace the
inner call left. -/
theorem around_Pdf (l : Layer) (svc : ConvertService) (s : String) (w : World) :
    (l.around svc).Pdf s w =
      ((svc.Pdf s w).1,
       ⟨(svc.Pdf s w).2.clock,
        (svc.Pdf s w).2.trace ++
          l.expectedRecords s (svc.Pdf s w).1 ((svc.Pdf s w).2.clock - w.clock)⟩) := by
  cases l with
  | logging logger =>
      simp [Layer.around, loggingMiddleware.toService, loggingMiddleware.Pdf, Logger.Log,
        World.emit, timeNow, timeSince, Layer.expectedRecords]
  | instrumenting rc rl cr =>
      simp [Layer.around, instrumentingMiddleware.toService, instrumentingMiddleware.Pdf,
        Counter.Add, Histogram.Observe, World.emit, timeNow, timeSince, Layer.expectedRecords,
        sprintBool_isNone]

/-- A stack returns what its inner service returned and appends the records of its layers,
innermost first. -/
theorem wrap_Pdf (layers : List Layer) (inner : ConvertService) (s : String) (w : World) :
    (wrap layers inner).Pdf s w =
      ((inner.Pdf s w).1,
       ⟨(inner.Pdf s w).2.clock,
        (inner.Pdf s w).2.trace ++
          (layers.map (fun l =>
            l.expectedRecords s (inner.Pdf s w).1 ((inner.Pdf s w).2.clock - w.clock))).flatten⟩) := by
  induction layers generalizing inner with
  | nil => simp [wrap]
  | cons l ls ih =>
      rw [wrap, ih (l.around inner)]
      simp [around_Pdf]

theorem main_svc_eq_wrap (fpdf : Gofpdf) :
    main.svc fpdf =
      wrap [.logging main.logger,
            .instrumenting main.requestCount main.requestLatency main.countResult]
        (convertService.toService fpdf) := by
  rfl

/-- A member for another key leaves the decoding state as it is. -/
theorem decodeMember_other (st : pdfRequest × Option GoError) (member : String × Json)
    (h : matchesFieldS member.1 = false) : decodeMember st member = st := by
  simp [decodeMember, h]

/-- An object without a member for the field S leaves the decoding state as it is. -/
theorem foldl_decodeMember_missing (members : List (String × Json))
    (st : pdfRequest × Option GoError)
    (h : ∀ m ∈ members, matchesFieldS m.1 = false) :
    members.foldl decodeMember st = st := by
  induction members generalizing st with
  | nil => rfl
  | cons m ms ih =>
      have hm : matchesFieldS m.1 = false := h m (List.mem_cons_self m ms)
      have hms : ∀ x ∈ ms, matchesFieldS x.1 = false :=
        fun x hx => h x (List.mem_cons_of_mem m hx)
      simp [List.foldl_cons, decodeMember_other st m hm, ih st hms]

/-- A saved error stays saved through one member. -/
theorem decodeMember_saved (st : pdfRequest × Option GoError) (member : String × Json)
    (h : st.2 ≠ none) : (decodeMember st member).2 ≠ none := by
  obtain ⟨req, saved⟩ := st
  cases saved with
  | none => exact absurd rfl h
  | some e =>
      unfold decodeMember
      split
      · split <;> simp [saveError]
      · simp

/-- A saved error stays saved through the rest of the object. -/
theorem foldl_decodeMember_saved (members : List (String × Json))
    (st : pdfRequest × Option GoError) (h : st.2 ≠ none) :
    (members.foldl decodeMember st).2 ≠ none := by
  induction members generalizing st with
  | nil => exact h
  | cons m ms ih => exact ih (decodeMember st m) (decodeMember_saved st m h)

/-- A member for the field S with a value of the wrong type saves an error. -/
theorem decodeMember_wrong (st : pdfRequest × Option GoError) (member : String × Json)
    (hk : matchesFieldS member.1 = true) (hv : member.2.isWrongTypeForString = true) :
    (decodeMember st member).2 ≠ none := by
  obtain ⟨req, saved⟩ := st
  obtain ⟨key, v⟩ := member
  cases v <;> cases saved <;>
    simp_all [decodeMember, saveError, Json.isWrongTypeForString]

/-- An object with a wrongly typed member for the field S ends with an error saved. -/
theorem foldl_decodeMember_wrong (members : List (String × Json))
    (st : pdfRequest × Option GoError)
    (h : ∃ m ∈ members, matchesFieldS m.1 = true ∧ m.2.isWrongTypeForString = true) :
    (members.foldl decodeMember st).2 ≠ none := by
  induction members generalizing st with
  | nil => simp at h
  | cons m ms ih =>
      obtain ⟨x, hx, hk, hv⟩ := h
      rcases List.mem_cons.mp hx with rfl | hx
      · exact foldl_decodeMember_saved ms _ (decodeMember_wrong st x hk hv)
      · exact ih (decodeMember st m) ⟨x, hx, hk, hv⟩

/-- The handler stops at a decode error: the endpoint is not called. -/
theorem pdfHandler_decode_error (fpdf : Gofpdf) (r : Body) (w : World) (err : GoError)
    (h : (decodePdfRequest r).2 = some err) :
    main.pdfHandler fpdf r w = (.decodeFailed err, w) := by
  simp [main.pdfHandler, ServeHTTP, h]

/-- What the wired service does with the empty input. -/
theorem main_svc_Pdf_empty (fpdf : Gofpdf) (w : World) :
    (main.svc fpdf).Pdf "" w =
      (("", some ErrEmpty),
       ⟨w.clock,
        w.trace ++
          [.log main.logger
             [("method", .str "pdf"), ("input", .str ""), ("output", .str ""),
              ("err", .err (some ErrEmpty)), ("took", .dur 0)],
           .add ⟨"my_group_string_service_request_count",
             ["method", "pdf", "error", "false"]⟩ 1,
           .observe ⟨"my_group_string_service_request_latency_microseconds",
             ["method", "pdf", "error", "false"]⟩ 0]⟩) := by
  rw [main_svc_eq_wrap, wrap_Pdf]
  simp [convertService.toService, convertService.Pdf, Layer.expectedRecords, Counter.With,
    Histogram.With, main.requestCount, main.requestLatency]

/-- How many records of each kind one layer emits. -/
theorem expectedRecords_count_layer (l : Layer) (s : String) (r : String × Option GoError)
    (took : Nat) :
    ((l.expectedRecords s r took).countP Event.isLog = if l.isLogging then 1 else 0) ∧
      ((l.expectedRecords s r took).countP Event.isAdd = if l.isLogging then 0 else 1) ∧
      ((l.expectedRecords s r took).countP Event.isObserve = if l.isLogging then 0 else 1) ∧
      ((l.expectedRecords s r took).countP Event.isFpdf = 0) := by
  cases l <;> exact ⟨rfl, rfl, rfl, rfl⟩

/-- How many records of each kind a stack emits, and that it emits nothing else. -/
theorem expectedRecords_counts (layers : List Layer) (s : String) (r : String × Option GoError)
    (took : Nat) :
    ((layers.map (fun l => l.expectedRecords s r took)).flatten.countP Event.isLog =
        layers.countP Layer.isLogging) ∧
      ((layers.map (fun l => l.expectedRecords s r took)).flatten.countP Event.isAdd =
        layers.countP (fun l => !l.isLogging)) ∧
      ((layers.map (fun l => l.expectedRecords s r took)).flatten.countP Event.isObserve =
        layers.countP (fun l => !l.isLogging)) ∧
      ((layers.map (fun l => l.expectedRecords s r took)).flatten.countP Event.isFpdf = 0) := by
  induction layers with
  | nil => exact ⟨rfl, rfl, rfl, rfl⟩
  | cons l ls ih =>
      obtain ⟨h1, h2, h3, h4⟩ := ih
      obtain ⟨g1, g2, g3, g4⟩ := expectedRecords_count_layer l s r took
      simp only [List.map_cons, List.flatten_cons, List.countP_append, List.countP_cons,
        h1, h2, h3, h4, g1, g2, g3, g4]
      cases hl : l.isLogging <;> simp [Nat.add_comm]

/-- The layers of a stack are its logging layers and its instrumenting layers. -/
theorem countP_isLogging_add (layers : List Layer) :
    layers.countP Layer.isLogging + layers.countP (fun l => !l.isLogging) = layers.length := by
  induction layers with
  | nil => rfl
  | cons l ls ih =>
      simp only [List.countP_cons, List.length_cons]
      cases hl : l.isLogging <;> simp <;> omega

/-- Pairing every layer with the same elapsed time. -/
theorem zipWith_replicate_records (layers : List Layer) (s : String)
    (r : String × Option GoError) (took : Nat) :
    List.zipWith (fun l t => l.expectedRecords s r t) layers
        (List.replicate layers.length took) =
      layers.map (fun l => l.expectedRecords s r took) := by
  induction layers with
  | nil => rfl
  | cons l ls ih => simp [List.replicate_succ, ih]

/-! ## The service -/

/-- C1: convertService.Pdf on the empty string returns the pair ("", ErrEmpty), the
description of ErrEmpty is "Empty string", and the world is left as it was: no gofpdf call of
any kind, so no document and no OutputFileAndClose. -/
theorem convertService_Pdf_empty (fpdf : Gofpdf) (w : World) :
    convertService.Pdf fpdf "" w = (("", some ErrEmpty), w) ∧
      ErrEmpty.Error = "Empty string" ∧
      newEvents w (convertService.Pdf fpdf "" w).2 = [] ∧
      (newEvents w (convertService.Pdf fpdf "" w).2).countP Event.isFpdf = 0 := by
  simp [convertService.Pdf, ErrEmpty, GoError.Error, newEvents_self]

/-- C2, refuted as stated: with a renderer that cannot write the file, the non-empty input
"hello" makes convertService.Pdf return "Done" together with a non-nil error. -/
theorem convertService_Pdf_render_failure :
    "hello" ≠ "" ∧
      (convertService.Pdf failingRenderer "hello" World.init).1 =
        ("Done", some (.renderError "open example.pdf: permission denied")) ∧
      (convertService.Pdf failingRenderer "hello" World.init).1.2 ≠ none := by
  simp [convertService.Pdf, failingRenderer, Gofpdf.OutputFileAndClose]

/-- C2, amended: for every non-empty input convertService.Pdf returns the payload "Done"
together with exactly the error that OutputFileAndClose answered for "example.pdf" (so the
failure is nil exactly when the renderer succeeded), and it makes exactly one
artifact-producing render call, after the five calls that build the document, whatever the
renderer answers. -/
theorem convertService_Pdf_nonempty (fpdf : Gofpdf) (s : String) (w : World) (hs : s ≠ "") :
    (convertService.Pdf fpdf s w).1 =
        ("Done",
         (fpdf.outcome "example.pdf"
           ⟨w.clock,
            w.trace ++ [.fpdf (.New "P" "mm" "A4" ""), .fpdf .AddPage,
              .fpdf (.SetFont "Arial" "B" 16), .fpdf (.Cell 40 10 s),
              .fpdf (.Cell 40 20 s)]⟩).1) ∧
      (convertService.Pdf fpdf s w).2.trace =
        w.trace ++ [.fpdf (.New "P" "mm" "A4" ""), .fpdf .AddPage,
          .fpdf (.SetFont "Arial" "B" 16), .fpdf (.Cell 40 10 s), .fpdf (.Cell 40 20 s),
          .fpdf (.OutputFileAndClose "example.pdf")] ∧
      (newEvents w (convertService.Pdf fpdf s w).2).countP Event.isRender = 1 := by
  simp [convertService.Pdf, hs, Gofpdf.OutputFileAndClose, Gofpdf.call, World.emit, newEvents,
    Event.isRender, List.countP_cons]

/-- Witness of C2 amended: the input "hello" with a failing renderer. -/
theorem convertService_Pdf_nonempty_witness :
    "hello" ≠ "" ∧
      (convertService.Pdf failingRenderer "hello" World.init).1 =
        ("Done",
         (failingRenderer.outcome "example.pdf"
           ⟨World.init.clock,
            World.init.trace ++ [.fpdf (.New "P" "mm" "A4" ""), .fpdf .AddPage,
              .fpdf (.SetFont "Arial" "B" 16), .fpdf (.Cell 40 10 "hello"),
              .fpdf (.Cell 40 20 "hello")]⟩).1) :=
  ⟨by decide, (convertService_Pdf_nonempty failingRenderer "hello" World.init (by decide)).1⟩

/-! ## The decorators -/

/-- C3: decorator transparency.  For every inner service, every input and every stack of
logging and instrumenting layers, in any order and to any depth, Pdf of the stack returns the
very pair (output, failure) that Pdf of the inner service returns. -/
theorem wrap_transparent (layers : List Layer) (inner : ConvertService) (s : String)
    (w : World) :
    ((wrap layers inner).Pdf s w).1 = (inner.Pdf s w).1 := by
  rw [wrap_Pdf]

/-- C9: for every stack of N decorators around an inner service and every input, one call
appends to the trace the inner call left exactly N records and nothing else, also when the
inner call fails: one Log call per logging layer, carrying method "pdf", the input, the inner
output and the inner failure, and one Add(1) and one Observe per instrumenting layer, both
labelled method "pdf" and a flag that is "true" exactly when the inner call returned no
failure. -/
theorem wrap_emits_one_record_per_layer (layers : List Layer) (inner : ConvertService)
    (s : String) (w : World) :
    ∃ recs : List Event,
      ((wrap layers inner).Pdf s w).2.trace = (inner.Pdf s w).2.trace ++ recs ∧
      recs.countP Event.isLog = layers.countP Layer.isLogging ∧
      recs.countP Event.isAdd = layers.countP (fun l => !l.isLogging) ∧
      recs.countP Event.isObserve = layers.countP (fun l => !l.isLogging) ∧
      recs.countP Event.isLog + recs.countP Event.isAdd = layers.length ∧
      recs.countP Event.isFpdf = 0 ∧
      ∀ e ∈ recs,
        match e with
        | .log _ keyvals =>
            ∃ took, keyvals =
              [("method", .str "pdf"), ("input", .str s),
               ("output", .str (inner.Pdf s w).1.1), ("err", .err (inner.Pdf s w).1.2),
               ("took", .dur took)]
        | .add c delta =>
            delta = 1 ∧ ∃ rc : Counter, c =
              rc.With ["method", "pdf", "error",
                if (inner.Pdf s w).1.2 = none then "true" else "false"]
        | .observe h _ =>
            ∃ rl : Histogram, h =
              rl.With ["method", "pdf", "error",
                if (inner.Pdf s w).1.2 = none then "true" else "false"]
        | .fpdf _ => False := by
  obtain ⟨h1, h2, h3, h4⟩ :=
    expectedRecords_counts layers s (inner.Pdf s w).1 ((inner.Pdf s w).2.clock - w.clock)
  refine ⟨_, by rw [wrap_Pdf], h1, h2, h3, ?_, h4, ?_⟩
  · rw [h1, h2]
    exact countP_isLogging_add layers
  · intro e he
    simp only [List.mem_flatten, List.mem_map] at he
    obtain ⟨es, ⟨l, _, rfl⟩, hmem⟩ := he
    cases l with
    | logging logger =>
        simp only [Layer.expectedRecords, List.mem_singleton] at hmem
        subst hmem
        exact ⟨_, rfl⟩
    | instrumenting rc rl cr =>
        simp only [Layer.expectedRecords, List.mem_cons, List.mem_singleton,
          List.not_mem_nil, or_false] at hmem
        rcases hmem with rfl | rfl
        · exact ⟨rfl, rc, rfl⟩
        · exact ⟨rl, rfl⟩

/-- C10: strict nesting of the hooks.  For every stack of decorators around an inner service
the trace of one call is the trace the inner call left, followed by the records of the layers
from the innermost to the outermost, each with the elapsed time it measured.  In the stack
wired by main the calls on gofpdf (none for the empty input, else the five document calls and
the render call) come first, then the log record, then the counter increment, then the latency
observation. -/
theorem wrap_trace_innermost_first (layers : List Layer) (inner : ConvertService) (s : String)
    (w : World) :
    (∃ tooks : List Nat, tooks.length = layers.length ∧
        ((wrap layers inner).Pdf s w).2.trace =
          (inner.Pdf s w).2.trace ++
            (List.zipWith (fun l took => l.expectedRecords s (inner.Pdf s w).1 took)
              layers tooks).flatten) ∧
      ∀ fpdf : Gofpdf, ∃ tookLog tookObserve : Nat,
        ((main.svc fpdf).Pdf s w).2.trace =
          (w.trace ++
            (if s = "" then []
             else [.fpdf (.New "P" "mm" "A4" ""), .fpdf .AddPage,
               .fpdf (.SetFont "Arial" "B" 16), .fpdf (.Cell 40 10 s), .fpdf (.Cell 40 20 s),
               .fpdf (.OutputFileAndClose "example.pdf")])) ++
            [.log main.logger
               [("method", .str "pdf"), ("input", .str s),
                ("output", .str (convertService.Pdf fpdf s w).1.1),
                ("err", .err (convertService.Pdf fpdf s w).1.2),
                ("took", .dur tookLog)],
             .add ⟨"my_group_string_service_request_count",
               ["method", "pdf", "error",
                 if (convertService.Pdf fpdf s w).1.2 = none then "true" else "false"]⟩ 1,
             .observe ⟨"my_group_string_service_request_latency_microseconds",
               ["method", "pdf", "error",
                 if (convertService.Pdf fpdf s w).1.2 = none then "true" else "false"]⟩
               tookObserve] := by
  constructor
  · refine ⟨List.replicate layers.length ((inner.Pdf s w).2.clock - w.clock), by simp, ?_⟩
    rw [wrap_Pdf, zipWith_replicate_records]
  · intro fpdf
    refine ⟨(convertService.Pdf fpdf s w).2.clock - w.clock,
      (convertService.Pdf fpdf s w).2.clock - w.clock, ?_⟩
    rw [main_svc_eq_wrap, wrap_Pdf]
    by_cases hs : s = ""
    · simp [hs, convertService.toService, convertService.Pdf, Layer.expectedRecords,
        Counter.With, Histogram.With, main.requestCount, main.requestLatency]
    · simp [hs, convertService.toService, convertService.Pdf, Layer.expectedRecords,
        Counter.With, Histogram.With, main.requestCount, main.requestLatency,
        Gofpdf.OutputFileAndClose, Gofpdf.call, World.emit]

/-! ## The endpoint -/

/-- C4: for every service and every pdfRequest the endpoint returns a pdfResponse with a nil
error, whether the service succeeds or fails; the Err field is the empty string on domain
success and the description of the failure otherwise. -/
theorem makePdfEndpoint_never_fails (svc : ConvertService) (req : pdfRequest) (w : World) :
    ∃ resp : pdfResponse,
      makePdfEndpoint svc (.pdfRequest req) w =
        (.returned (.pdfResponse resp, none), (svc.Pdf req.S w).2) ∧
      ((svc.Pdf req.S w).1.2 = none → resp.Err = "") ∧
      (∀ e, (svc.Pdf req.S w).1.2 = some e → resp.Err = e.Error) := by
  cases h : (svc.Pdf req.S w).1.2 with
  | none => exact ⟨⟨(svc.Pdf req.S w).1.1, ""⟩, by simp [makePdfEndpoint, h]⟩
  | some e => exact ⟨⟨(svc.Pdf req.S w).1.1, e.Error⟩, by simp [makePdfEndpoint, h]⟩

/-- C5, refuted as stated: when the renderer fails on the input "hello", convertService.Pdf
returns a failure and the response carries the payload "Done", not the empty string. -/
theorem makePdfEndpoint_failure_payload_not_zero :
    (convertService.Pdf failingRenderer "hello" World.init).1.2 =
        some (.renderError "open example.pdf: permission denied") ∧
      (makePdfEndpoint (convertService.toService failingRenderer) (.pdfRequest ⟨"hello"⟩)
          World.init).1 =
        .returned
          (.pdfResponse ⟨"Done", "open example.pdf: permission denied"⟩, none) ∧
      "Done" ≠ "" := by
  simp [makePdfEndpoint, convertService.toService, convertService.Pdf, failingRenderer,
    Gofpdf.OutputFileAndClose, GoError.Error]

/-- C5, amended: when svc.Pdf(req.S) returns a failure e, the response has Err set to the
description of e and V set to the output that svc.Pdf returned with the failure, unchanged;
for the empty-input failure of convertService that output is the empty string. -/
theorem makePdfEndpoint_failure_response (svc : ConvertService) (req : pdfRequest) (w : World)
    (e : GoError) (he : (svc.Pdf req.S w).1.2 = some e) :
    (makePdfEndpoint svc (.pdfRequest req) w).1 =
        .returned (.pdfResponse ⟨(svc.Pdf req.S w).1.1, e.Error⟩, none) ∧
      ∀ fpdf : Gofpdf,
        (makePdfEndpoint (convertService.toService fpdf) (.pdfRequest ⟨""⟩) w).1 =
          .returned (.pdfResponse ⟨"", "Empty string"⟩, none) := by
  constructor
  · simp [makePdfEndpoint, he]
  · intro fpdf
    simp [makePdfEndpoint, convertService.toService, convertService.Pdf, ErrEmpty,
      GoError.Error]

/-- Witness of C5 amended: the input "hello" with a failing renderer. -/
theorem makePdfEndpoint_failure_response_witness :
    ((convertService.toService failingRenderer).Pdf "hello" World.init).1.2 =
        some (.renderError "open example.pdf: permission denied") ∧
    (makePdfEndpoint (convertService.toService failingRenderer) (.pdfRequest ⟨"hello"⟩)
        World.init).1 =
      .returned
        (.pdfResponse
          ⟨((convertService.toService failingRenderer).Pdf "hello" World.init).1.1,
           (GoError.renderError "open example.pdf: permission denied").Error⟩, none) :=
  ⟨by simp [convertService.toService, convertService.Pdf, failingRenderer,
      Gofpdf.OutputFileAndClose],
   (makePdfEndpoint_failure_response (convertService.toService failingRenderer) ⟨"hello"⟩
    World.init (.renderError "open example.pdf: permission denied")
    (by simp [convertService.toService, convertService.Pdf, failingRenderer,
      Gofpdf.OutputFileAndClose])).1⟩

/-- C6, refuted as stated: handed a string instead of a pdfRequest, the endpoint panics; it
returns no error at all. -/
theorem makePdfEndpoint_panics_on_string :
    makePdfEndpoint (convertService.toService okRenderer) (.string "hello") World.init =
        (.panicked "interface conversion: interface is not main.pdfRequest", World.init) ∧
      ∀ out, makePdfEndpoint (convertService.toService okRenderer) (.string "hello")
          World.init ≠ (.returned out, World.init) := by
  simp [makePdfEndpoint]

/-- C6, amended: for every request value whose dynamic type is not pdfRequest the endpoint
panics at the type assertion; it returns neither a response nor an error, and svc.Pdf is not
called: the world is left as it was, whatever the service. -/
theorem makePdfEndpoint_not_request (svc : ConvertService) (request : GoValue) (w : World)
    (h : ∀ req, request ≠ .pdfRequest req) :
    makePdfEndpoint svc request w =
      (.panicked "interface conversion: interface is not main.pdfRequest", w) := by
  cases request with
  | pdfRequest req => exact absurd rfl (h req)
  | nil => rfl
  | pdfResponse resp => rfl
  | string s => rfl
  | other t => rfl

/-- Witness of C6 amended: the nil request. -/
theorem makePdfEndpoint_not_request_witness :
    makePdfEndpoint (convertService.toService okRenderer) .nil World.init =
      (.panicked "interface conversion: interface is not main.pdfRequest", World.init) :=
  makePdfEndpoint_not_request (convertService.toService okRenderer) .nil World.init
    (by intro req h; cases h)

/-! ## The decoder and the wired pipeline -/

/-- C7, refuted as stated: the body {}, in which the field s is missing, is decoded without
error into the request with the empty string, and that request goes through the whole chain:
convertService rejects it, both decorators record the call and the handler responds. -/
theorem decodePdfRequest_empty_object :
    decodePdfRequest (.value (.obj [])) = (.pdfRequest ⟨""⟩, none) ∧
      (main.pdfHandler okRenderer (.value (.obj [])) World.init).1 =
        .responded (.pdfResponse ⟨"", "Empty string"⟩) ∧
      ∃ tookLog tookObserve : Nat,
        (main.pdfHandler okRenderer (.value (.obj [])) World.init).2.trace =
          [.log main.logger
             [("method", .str "pdf"), ("input", .str ""), ("output", .str ""),
              ("err", .err (some ErrEmpty)), ("took", .dur tookLog)],
           .add ⟨"my_group_string_service_request_count",
             ["method", "pdf", "error", "false"]⟩ 1,
           .observe ⟨"my_group_string_service_request_latency_microseconds",
             ["method", "pdf", "error", "false"]⟩ tookObserve] := by
  refine ⟨rfl, ?_, 0, 0, ?_⟩ <;>
    simp [main.pdfHandler, ServeHTTP, decodePdfRequest, jsonDecode, makePdfEndpoint,
      main_svc_Pdf_empty, ErrEmpty, GoError.Error, World.init]

/-- C7, amended: for every body that is a JSON object without a member for the field s,
decodePdfRequest returns the pdfRequest with S empty and a nil error; the request then reaches
the decorator chain and convertService, which rejects it as empty input: the handler responds
with V empty and Err "Empty string" after one log record, one counter increment and one
latency observation. -/
theorem decodePdfRequest_missing_field (members : List (String × Json))
    (h : ∀ m ∈ members, matchesFieldS m.1 = false) :
    decodePdfRequest (.value (.obj members)) = (.pdfRequest ⟨""⟩, none) ∧
      ∀ (fpdf : Gofpdf) (w : World),
        (main.pdfHandler fpdf (.value (.obj members)) w).1 =
          .responded (.pdfResponse ⟨"", "Empty string"⟩) ∧
        ∃ tookLog tookObserve : Nat,
          (main.pdfHandler fpdf (.value (.obj members)) w).2.trace =
            w.trace ++
              [.log main.logger
                 [("method", .str "pdf"), ("input", .str ""), ("output", .str ""),
                  ("err", .err (some ErrEmpty)), ("took", .dur tookLog)],
               .add ⟨"my_group_string_service_request_count",
                 ["method", "pdf", "error", "false"]⟩ 1,
               .observe ⟨"my_group_string_service_request_latency_microseconds",
                 ["method", "pdf", "error", "false"]⟩ tookObserve] := by
  have hd : decodePdfRequest (.value (.obj members)) = (.pdfRequest ⟨""⟩, none) := by
    simp [decodePdfRequest, jsonDecode, foldl_decodeMember_missing members _ h]
  refine ⟨hd, ?_⟩
  intro fpdf w
  refine ⟨?_, 0, 0, ?_⟩ <;>
    simp [main.pdfHandler, ServeHTTP, hd, makePdfEndpoint, main_svc_Pdf_empty, ErrEmpty,
      GoError.Error]

/-- Witness of C7 amended: the body {"t":"x"}, which has no member for s. -/
theorem decodePdfRequest_missing_field_witness :
    (∀ m ∈ [("t", Json.str "x")], matchesFieldS m.1 = false) ∧
      decodePdfRequest (.value (.obj [("t", .str "x")])) = (.pdfRequest ⟨""⟩, none) :=
  ⟨by simp [matchesFieldS],
   (decodePdfRequest_missing_field [("t", .str "x")] (by simp [matchesFieldS])).1⟩

/-- C8, refuted as stated: in the body {"s":null} the field s holds a value of a JSON type
other than string, yet decodePdfRequest returns the pdfRequest with S empty and a nil error:
for encoding/json a null leaves a string target as it is.  The request then runs through the
whole chain: convertService rejects it, both decorators record the call and the handler
responds. -/
theorem decodePdfRequest_null_field :
    matchesFieldS "s" = true ∧
      Json.null.kindName ≠ (Json.str "").kindName ∧
      decodePdfRequest (.value (.obj [("s", .null)])) = (.pdfRequest ⟨""⟩, none) ∧
      (main.pdfHandler okRenderer (.value (.obj [("s", .null)])) World.init).1 =
        .responded (.pdfResponse ⟨"", "Empty string"⟩) ∧
      ∃ tookLog tookObserve : Nat,
        (main.pdfHandler okRenderer (.value (.obj [("s", .null)])) World.init).2.trace =
          [.log main.logger
             [("method", .str "pdf"), ("input", .str ""), ("output", .str ""),
              ("err", .err (some ErrEmpty)), ("took", .dur tookLog)],
           .add ⟨"my_group_string_service_request_count",
             ["method", "pdf", "error", "false"]⟩ 1,
           .observe ⟨"my_group_string_service_request_latency_microseconds",
             ["method", "pdf", "error", "false"]⟩ tookObserve] := by
  have hd : decodePdfRequest (.value (.obj [("s", .null)])) = (.pdfRequest ⟨""⟩, none) := by
    simp [decodePdfRequest, jsonDecode, decodeMember, matchesFieldS]
  refine ⟨by simp [matchesFieldS], by simp [Json.kindName], hd, ?_, 0, 0, ?_⟩ <;>
    simp [main.pdfHandler, ServeHTTP, hd, makePdfEndpoint, main_svc_Pdf_empty, ErrEmpty,
      GoError.Error, World.init]

/-- C8, amended: for every body that is a JSON object in which a member for the field s holds
a number, a boolean, an array or an object (the JSON types that encoding/json reports as a
mismatch for a Go string; null is not one of them), decodePdfRequest returns the nil request
with a non-nil error, and the wired handler stops there: it reports the decode failure and
leaves the world as it was, so no Pdf method ran, and there is no log record, no counter
increment, no latency observation and no render call. -/
theorem decodePdfRequest_wrong_type (members : List (String × Json))
    (h : ∃ m ∈ members, matchesFieldS m.1 = true ∧ m.2.isWrongTypeForString = true) :
    ∃ err : GoError,
      decodePdfRequest (.value (.obj members)) = (.nil, some err) ∧
      ∀ (fpdf : Gofpdf) (w : World),
        main.pdfHandler fpdf (.value (.obj members)) w = (.decodeFailed err, w) ∧
        newEvents w (main.pdfHandler fpdf (.value (.obj members)) w).2 = [] := by
  have hne := foldl_decodeMember_wrong members (⟨""⟩, none) h
  cases hf : (members.foldl decodeMember (⟨""⟩, none)).2 with
  | none => exact absurd hf hne
  | some err =>
      have hd : decodePdfRequest (.value (.obj members)) = (.nil, some err) := by
        simp [decodePdfRequest, jsonDecode, hf]
      refine ⟨err, hd, ?_⟩
      intro fpdf w
      have hp := pdfHandler_decode_error fpdf (.value (.obj members)) w err (by rw [hd])
      rw [hp]
      exact ⟨rfl, newEvents_self w⟩

/-- Witness of C8 amended: the body {"s":123}. -/
theorem decodePdfRequest_wrong_type_witness :
    (∃ m ∈ [("s", Json.num "123")],
        matchesFieldS m.1 = true ∧ m.2.isWrongTypeForString = true) ∧
      ∃ err : GoError,
        decodePdfRequest (.value (.obj [("s", .num "123")])) = (.nil, some err) ∧
        ∀ (fpdf : Gofpdf) (w : World),
          main.pdfHandler fpdf (.value (.obj [("s", .num "123")])) w = (.decodeFailed err, w) ∧
          newEvents w (main.pdfHandler fpdf (.value (.obj [("s", .num "123")])) w).2 = [] :=
  ⟨⟨("s", .num "123"), by simp, by simp [matchesFieldS], rfl⟩,
   decodePdfRequest_wrong_type [("s", .num "123")]
     ⟨("s", .num "123"), by simp, by simp [matchesFieldS], rfl⟩⟩

end PdfService
